import Mathlib

/-!
Verification of the MAX7219 32x8 LED-matrix driver (`light.h` / `light.c`).

The driver is embedded shallowly:
  * the framebuffer `fb` (a C array of 8 `uint32_t` rows) becomes a function
    `Fin HEIGHT → Nat`, each row held below `2 ^ 32`;
  * the SPI bus is modelled by an oracle `bus : Nat → Nat` giving the number
    of bytes the OS `write` call reports transferred for the k-th write of
    the session, together with an explicit trace `BusState` of the byte
    buffers handed to `write`, in order;
  * fallible C functions returning `-1`/`0` become `Except DriverError Unit`;
    the error names follow the design taxonomy (the C code returns a bare
    `-1` on both the invalid-row-index path and the short-write path, which
    the model keeps apart as `InvalidArgument` and `ShortWrite`).
-/

namespace Max7219

/-- Constant `NUM_DEVICES` from the source: 4 cascaded MAX7219, 32x8 pixels. -/
def NUM_DEVICES : Nat := 4

/-- Constant `WIDTH` from the source. -/
def WIDTH : Nat := 32

/-- Constant `HEIGHT` from the source. -/
def HEIGHT : Nat := 8

/-- Register constant `REG_DECODE`. -/
def REG_DECODE : Nat := 0x09

/-- Register constant `REG_INTENSITY`. -/
def REG_INTENSITY : Nat := 0x0A

/-- Register constant `REG_SCANLIMIT`. -/
def REG_SCANLIMIT : Nat := 0x0B

/-- Register constant `REG_SHUTDOWN`. -/
def REG_SHUTDOWN : Nat := 0x0C

/-- Register constant `REG_DISPLAYTEST`. -/
def REG_DISPLAYTEST : Nat := 0x0F

/-- Error taxonomy of the design: the C code returns `-1` on every failure
path; the model distinguishes the two failure paths of the register
protocol. -/
inductive DriverError where
  | InvalidArgument : DriverError
  | ShortWrite : DriverError
deriving DecidableEq, Repr

/-- The trace of byte buffers handed to the OS `write` call, in issue order. -/
structure BusState where
  writes : List (List Nat)
deriving DecidableEq, Repr

/-- The call `write(spi_fd, tx, sizeof tx)`: appends the buffer to the trace and
returns the byte count the oracle `bus` reports for this (the k-th) write. -/
def spi_write (bus : Nat → Nat) (s : BusState) (tx : List Nat) : BusState × Nat :=
  (⟨s.writes ++ [tx]⟩, bus s.writes.length)

/-- The transmit buffer built by `max7219_broadcast`: the loop writes
`tx[i*2] = reg; tx[i*2+1] = data` for `i = 0 .. NUM_DEVICES-1`. -/
def broadcastTx (reg data : Nat) : List Nat :=
  (List.range NUM_DEVICES).flatMap fun _ => [reg, data]

/-- Function `max7219_broadcast(reg, data)`: one bus write of `broadcastTx`, failing
iff the reported byte count differs from the buffer length. -/
def max7219_broadcast (bus : Nat → Nat) (s : BusState) (reg data : Nat) :
    BusState × Except DriverError Unit :=
  let tx := broadcastTx reg data
  let r := spi_write bus s tx
  if r.2 ≠ tx.length then (r.1, Except.error DriverError.ShortWrite)
  else (r.1, Except.ok ())

/-- The transmit buffer built by `max7219_send_row`: the loop writes, for
each logical device `d`, `tx[chain_index*2] = digit` and
`tx[chain_index*2+1] = dev_data[d]` where `chain_index = NUM_DEVICES-1-d`
(farthest device first).  Expressed by wire position `p`:
`p / 2` is the chain index, so the device read there is
`NUM_DEVICES - 1 - p / 2`. -/
def max7219_send_row_tx (digit : Nat) (dev_data : List Nat) : List Nat :=
  (List.range (2 * NUM_DEVICES)).map fun p =>
    if p % 2 = 0 then digit else dev_data.getD (NUM_DEVICES - 1 - p / 2) 0

/-- Function `max7219_send_row(digit_1to8, dev_data)`: rejects a row index outside
`[1,8]` before touching the bus, otherwise performs one bus write of
`max7219_send_row_tx`, failing iff the reported byte count differs from the
buffer length. -/
def max7219_send_row (bus : Nat → Nat) (s : BusState) (digit_1to8 : Int)
    (dev_data : List Nat) : BusState × Except DriverError Unit :=
  if digit_1to8 < 1 ∨ digit_1to8 > 8 then
    (s, Except.error DriverError.InvalidArgument)
  else
    let tx := max7219_send_row_tx digit_1to8.toNat dev_data
    let r := spi_write bus s tx
    if r.2 ≠ tx.length then (r.1, Except.error DriverError.ShortWrite)
    else (r.1, Except.ok ())

/-- The clear loop at the end of `max7219_init`:
`for (row = 1; row <= 8; row++) send_row(row, {0,0,0,0})`, returning on the
first failure. -/
def init_clear_loop (bus : Nat → Nat) :
    List Int → BusState → BusState × Except DriverError Unit
  | [], s => (s, Except.ok ())
  | row :: rows, s =>
    match max7219_send_row bus s row [0, 0, 0, 0] with
    | (s', Except.ok _) => init_clear_loop bus rows s'
    | (s', Except.error e) => (s', Except.error e)

/-- Function `max7219_init(intensity_0to15)`: clamps the intensity to 15, issues the
five configuration broadcasts, then the row-clear loop; each failure aborts
immediately. -/
def max7219_init (bus : Nat → Nat) (s : BusState) (intensity_0to15 : Nat) :
    BusState × Except DriverError Unit :=
  let intensity := if intensity_0to15 > 15 then 15 else intensity_0to15
  match max7219_broadcast bus s REG_DISPLAYTEST 0x00 with
  | (s1, Except.error e) => (s1, Except.error e)
  | (s1, Except.ok _) =>
    match max7219_broadcast bus s1 REG_DECODE 0x00 with
    | (s2, Except.error e) => (s2, Except.error e)
    | (s2, Except.ok _) =>
      match max7219_broadcast bus s2 REG_SCANLIMIT 0x07 with
      | (s3, Except.error e) => (s3, Except.error e)
      | (s3, Except.ok _) =>
        match max7219_broadcast bus s3 REG_INTENSITY intensity with
        | (s4, Except.error e) => (s4, Except.error e)
        | (s4, Except.ok _) =>
          match max7219_broadcast bus s4 REG_SHUTDOWN 0x01 with
          | (s5, Except.error e) => (s5, Except.error e)
          | (s5, Except.ok _) => init_clear_loop bus [1, 2, 3, 4, 5, 6, 7, 8] s5

/-- The framebuffer: `uint32_t fb[HEIGHT]`, one 32-bit row bit-set per row. -/
def Framebuffer : Type := Fin HEIGHT → Nat

/-- Function `fb_clear()`: every row all-zero. -/
def fb_clear : Framebuffer := fun _ => 0

/-- Function `fb_set_pixel(x, y, on)`: bounds-checked set/clear of bit `x` of row `y`;
out-of-range coordinates are a silent no-op.  `~mask` on a `uint32_t` is
`(2^32 - 1) ^^^ mask`. -/
def fb_set_pixel (fb : Framebuffer) (x y : Int) (onVal : Bool) : Framebuffer :=
  if x < 0 ∨ x ≥ (WIDTH : Int) ∨ y < 0 ∨ y ≥ (HEIGHT : Int) then fb
  else fun r =>
    if (r : Int) = y then
      if onVal then fb r ||| (1 <<< x.toNat)
      else fb r &&& ((2 ^ 32 - 1) ^^^ (1 <<< x.toNat))
    else fb r

/-- The inner loop of `fb_flush` building device `d`'s byte from row value
`row`: `b |= ((row >> (d*8+bit)) & 1) ? (1 << bit) : 0` for `bit = 0..7`. -/
def rowByte (row : Nat) (d : Nat) : Nat :=
  (List.range 8).foldl
    (fun b bit =>
      let x := d * 8 + bit
      if (row >>> x) &&& 1 = 1 then b ||| (1 <<< bit) else b)
    0

/-- The `dev_bytes` array built by `fb_flush` for one row. -/
def rowDevBytes (row : Nat) : List Nat :=
  (List.range NUM_DEVICES).map fun d => rowByte row d

/-- The row loop of `fb_flush`: for each remaining row index `y`, send row
`y+1` with that row's device bytes, returning on the first failure. -/
def fb_flush_loop (bus : Nat → Nat) (fb : Framebuffer) :
    List (Fin HEIGHT) → BusState → BusState × Except DriverError Unit
  | [], s => (s, Except.ok ())
  | y :: ys, s =>
    match max7219_send_row bus s ((y : Nat) + 1 : Int) (rowDevBytes (fb y)) with
    | (s', Except.ok _) => fb_flush_loop bus fb ys s'
    | (s', Except.error e) => (s', Except.error e)

/-- Function `fb_flush()`: the loop over rows `y = 0 .. HEIGHT-1`. -/
def fb_flush (bus : Nat → Nat) (s : BusState) (fb : Framebuffer) :
    BusState × Except DriverError Unit :=
  fb_flush_loop bus fb (List.finRange HEIGHT) s

/-- The mutable state touched by `next_light`: the cursor globals
`cur_light_x`, `cur_light_y`, the framebuffer and the bus trace. -/
structure LightState where
  cur_light_x : Int
  cur_light_y : Int
  fb : Framebuffer
  bs : BusState

/-- The tail of `next_light` shared by both branches: clear the
framebuffer, set the cursor pixel, flush; return 1 on a flush failure. -/
def next_light_tail (bus : Nat → Nat) (s : LightState) : LightState × Int :=
  let fb1 := fb_set_pixel fb_clear s.cur_light_x s.cur_light_y true
  match fb_flush bus s.bs fb1 with
  | (b, Except.error _) => ({ s with fb := fb1, bs := b }, 1)
  | (b, Except.ok _) => ({ s with fb := fb1, bs := b }, 0)

/-- Function `next_light()`, faithful to the source: `++cur_light_x` always
increments; the wrap test compares the incremented x against `HEIGHT`; the
statement `cur_light_x == 0;` is a comparison expression with no effect, so
no reset of x is modelled. -/
def next_light (bus : Nat → Nat) (s : LightState) : LightState × Int :=
  let x := s.cur_light_x + 1
  if x > (HEIGHT : Int) then
    let y := s.cur_light_y + 1
    if y > (HEIGHT : Int) then
      ({ s with cur_light_x := x, cur_light_y := y }, 1)
    else
      next_light_tail bus { s with cur_light_x := x, cur_light_y := y }
  else
    next_light_tail bus { s with cur_light_x := x }

/-- The globals at program start (`cur_light_x = cur_light_y = 0`, cleared
framebuffer after `init_lights`, no animation writes issued yet). -/
def initialLightState : LightState :=
  { cur_light_x := 0, cur_light_y := 0, fb := fb_clear, bs := ⟨[]⟩ }

/-- The cursor-state sequence produced by repeated `next_light` calls from
the initial state. -/
def runLights (bus : Nat → Nat) : Nat → LightState
  | 0 => initialLightState
  | n + 1 => (next_light bus (runLights bus n)).1

end Max7219

namespace Max7219

/-- Helper: every `max7219_send_row` transmit buffer is `2*NUM_DEVICES`
bytes long. -/
theorem max7219_send_row_tx_length (digit : Nat) (dev_data : List Nat) :
    (max7219_send_row_tx digit dev_data).length = 2 * NUM_DEVICES := by
  simp [max7219_send_row_tx]

/-- C1: the spec demands that column `d*8+0` land in the byte's
most-significant bit, but the flush code computes
`b |= ((row >> (d*8+bit)) & 1) << bit`, which sends the leftmost column of
each device segment to the least-significant bit: with only column 0 set
the row-1 transaction carries device 0's byte as `0x01`, not `0x80`, and
the in-code comment ("Put left->right into MSB->LSB") says the opposite of
what the code does. -/
theorem c1_flush_packs_leftmost_into_lsb :
    rowByte 1 0 = 0x01 ∧ rowByte (2 ^ 7) 0 = 0x80 ∧ rowByte 1 0 ≠ 0x80 ∧
    (fb_flush (fun _ => 8) ⟨[]⟩ (fb_set_pixel fb_clear 0 0 true)).1.writes.getD 0 []
      = [1, 0, 1, 0, 1, 0, 1, 0x01] := by
  refine ⟨by decide, by decide, by decide, by decide⟩

/-- C4: an out-of-range coordinate makes `fb_set_pixel` a silent no-op:
the framebuffer is returned unchanged and no error path exists. -/
theorem c4_set_pixel_oob_noop (fb : Framebuffer) (x y : Int) (onVal : Bool)
    (h : x < 0 ∨ x ≥ (WIDTH : Int) ∨ y < 0 ∨ y ≥ (HEIGHT : Int)) :
    fb_set_pixel fb x y onVal = fb := by
  unfold fb_set_pixel
  rw [if_pos h]

/-- Witness for C4 at the concrete out-of-range coordinate `(32, 0)`. -/
theorem c4_set_pixel_oob_noop_witness :
    ((32 : Int) < 0 ∨ (32 : Int) ≥ (WIDTH : Int) ∨ (0 : Int) < 0 ∨
      (0 : Int) ≥ (HEIGHT : Int)) ∧
    fb_set_pixel fb_clear 32 0 true = fb_clear :=
  ⟨by decide, c4_set_pixel_oob_noop fb_clear 32 0 true (by decide)⟩

/-- C7: a row index outside `[1,8]` is rejected with `InvalidArgument`
before any bus write: the returned state is exactly the input state, so
nothing was transmitted. -/
theorem c7_send_row_invalid (bus : Nat → Nat) (s : BusState) (digit : Int)
    (dev_data : List Nat) (h : digit < 1 ∨ digit > 8) :
    max7219_send_row bus s digit dev_data =
      (s, Except.error DriverError.InvalidArgument) := by
  unfold max7219_send_row
  rw [if_pos h]

/-- Witness for C7 at the concrete out-of-range row index `9`. -/
theorem c7_send_row_invalid_witness :
    ((9 : Int) < 1 ∨ (9 : Int) > 8) ∧
    max7219_send_row (fun _ => 8) ⟨[]⟩ 9 [1, 2, 3, 4] =
      (⟨[]⟩, Except.error DriverError.InvalidArgument) :=
  ⟨by decide, c7_send_row_invalid (fun _ => 8) ⟨[]⟩ 9 [1, 2, 3, 4] (by decide)⟩

/-- C6: `max7219_broadcast` performs exactly one bus write of the 2*D-byte
buffer holding D copies of the `(register, value)` pair, and fails with
`ShortWrite` iff the reported transfer count differs from `2*D`. -/
theorem c6_broadcast_spec (bus : Nat → Nat) (s : BusState) (reg data : Nat) :
    (max7219_broadcast bus s reg data).1.writes = s.writes ++ [broadcastTx reg data] ∧
    broadcastTx reg data = [reg, data, reg, data, reg, data, reg, data] ∧
    (broadcastTx reg data).length = 2 * NUM_DEVICES ∧
    ((max7219_broadcast bus s reg data).2 = Except.error DriverError.ShortWrite ↔
      bus s.writes.length ≠ 2 * NUM_DEVICES) := by
  refine ⟨?_, ?_, ?_, ?_⟩
  · unfold max7219_broadcast spi_write
    dsimp only
    split <;> rfl
  · rfl
  · rfl
  · unfold max7219_broadcast spi_write
    dsimp only
    by_cases h : bus s.writes.length = 2 * NUM_DEVICES
    · rw [if_neg (by simpa [broadcastTx] using h)]
      simp [h]
    · rw [if_pos (by simpa [broadcastTx] using h)]
      simp [h]

end Max7219

namespace Max7219

/-- C2: for a valid row index and a D-entry byte array, `max7219_send_row`
issues exactly one bus write of a `2*D`-byte buffer, and that buffer holds
logical device d's pair `(row_index, per_device_bytes[d])` at wire position
`D-1-d`, i.e. at byte offsets `2*(D-1-d)` and `2*(D-1-d)+1`. -/
theorem c2_send_row_wire_positions (bus : Nat → Nat) (s : BusState) (digit : Int)
    (dev_data : List Nat) (h1 : 1 ≤ digit) (h8 : digit ≤ 8)
    (_hlen : dev_data.length = NUM_DEVICES) (d : Nat) (hd : d < NUM_DEVICES) :
    (max7219_send_row bus s digit dev_data).1.writes =
      s.writes ++ [max7219_send_row_tx digit.toNat dev_data] ∧
    (max7219_send_row_tx digit.toNat dev_data).length = 2 * NUM_DEVICES ∧
    (max7219_send_row_tx digit.toNat dev_data).getD (2 * (NUM_DEVICES - 1 - d)) 0
      = digit.toNat ∧
    (max7219_send_row_tx digit.toNat dev_data).getD (2 * (NUM_DEVICES - 1 - d) + 1) 0
      = dev_data.getD d 0 := by
  refine ⟨?_, max7219_send_row_tx_length _ _, ?_, ?_⟩
  · unfold max7219_send_row spi_write
    rw [if_neg (by omega)]
    dsimp only
    split <;> rfl
  · have hd4 : d < 4 := hd
    interval_cases d <;>
      simp [max7219_send_row_tx, NUM_DEVICES, List.range_succ]
  · have hd4 : d < 4 := hd
    interval_cases d <;>
      simp [max7219_send_row_tx, NUM_DEVICES, List.range_succ]

/-- Witness for C2 at row index 2, data `[10,20,30,40]`, device `d = 0`. -/
theorem c2_send_row_wire_positions_witness :
    (1 ≤ (2 : Int) ∧ (2 : Int) ≤ 8 ∧
      ([10, 20, 30, 40] : List Nat).length = NUM_DEVICES ∧ 0 < NUM_DEVICES) ∧
    ((max7219_send_row (fun _ => 8) ⟨[]⟩ 2 [10, 20, 30, 40]).1.writes =
        BusState.writes ⟨[]⟩ ++ [max7219_send_row_tx (2 : Int).toNat [10, 20, 30, 40]] ∧
      (max7219_send_row_tx (2 : Int).toNat [10, 20, 30, 40]).length = 2 * NUM_DEVICES ∧
      (max7219_send_row_tx (2 : Int).toNat [10, 20, 30, 40]).getD
          (2 * (NUM_DEVICES - 1 - 0)) 0 = (2 : Int).toNat ∧
      (max7219_send_row_tx (2 : Int).toNat [10, 20, 30, 40]).getD
          (2 * (NUM_DEVICES - 1 - 0) + 1) 0 = ([10, 20, 30, 40] : List Nat).getD 0 0) :=
  ⟨⟨by decide, by decide, by decide, by decide⟩,
    c2_send_row_wire_positions (fun _ => 8) ⟨[]⟩ 2 [10, 20, 30, 40]
      (by decide) (by decide) (by decide) 0 (by decide)⟩

end Max7219

namespace Max7219

/-- A framebuffer whose every row has only bit 0 set. -/
def fbOne : Framebuffer := fun _ => 1

/-- C3 fails as stated: on a framebuffer where pixel (0,0) is already on,
`set_pixel(0,0,true)` then `set_pixel(0,0,false)` leaves row 0 equal to 0,
not to its prior value 1. -/
theorem c3_roundtrip_counterexample :
    (fb_set_pixel (fb_set_pixel fbOne 0 0 true) 0 0 false) ⟨0, by decide⟩ ≠
      fbOne ⟨0, by decide⟩ := by
  decide

/-- Helper: setting then clearing bit `n` of a 32-bit row value restores it
provided bit `n` was clear beforehand. -/
theorem set_then_clear (v n : Nat) (hn : n < 32) (hv : v < 2 ^ 32)
    (hb : v.testBit n = false) :
    (v ||| (1 <<< n)) &&& ((2 ^ 32 - 1) ^^^ (1 <<< n)) = v := by
  apply Nat.eq_of_testBit_eq
  intro j
  rw [Nat.testBit_land, Nat.testBit_lor, Nat.testBit_xor, Nat.one_shiftLeft,
    Nat.testBit_two_pow, Nat.testBit_two_pow_sub_one]
  by_cases hjn : n = j
  · subst hjn
    simp [hb, hn]
  · by_cases hj : j < 32
    · simp [hjn, hj]
    · have hvj : v.testBit j = false :=
        Nat.testBit_eq_false_of_lt
          (lt_of_lt_of_le hv (Nat.pow_le_pow_right (by norm_num) (by omega)))
      simp [hjn, hj, hvj]

/-- C3 amended: the set-then-clear round trip restores the framebuffer for
every in-bounds coordinate whose pixel was off beforehand (rows being
32-bit values); with the pixel already on, the round trip turns it off
(see the counterexample). -/
theorem c3_roundtrip_amended (fb : Framebuffer) (x y : Int)
    (hx0 : 0 ≤ x) (hxW : x < (WIDTH : Int)) (hy0 : 0 ≤ y) (hyH : y < (HEIGHT : Int))
    (hrep : ∀ r : Fin HEIGHT, fb r < 2 ^ 32)
    (hoff : ∀ r : Fin HEIGHT, (r : Int) = y → (fb r).testBit x.toNat = false) :
    fb_set_pixel (fb_set_pixel fb x y true) x y false = fb := by
  have hcond : ¬(x < 0 ∨ x ≥ (WIDTH : Int) ∨ y < 0 ∨ y ≥ (HEIGHT : Int)) := by
    push_neg
    exact ⟨hx0, hxW, hy0, hyH⟩
  funext r
  simp only [fb_set_pixel, if_neg hcond]
  by_cases hr : (r : Int) = y
  · simp only [if_pos hr, if_true, Bool.false_eq_true, if_false]
    have hxn : x.toNat < 32 := by
      have : x < 32 := by simpa [WIDTH] using hxW
      omega
    exact set_then_clear (fb r) x.toNat hxn (hrep r) (hoff r hr)
  · simp only [if_neg hr]

/-- Witness for the amended C3 at `(x,y) = (5,3)` on the cleared
framebuffer. -/
theorem c3_roundtrip_amended_witness :
    ((0 : Int) ≤ 5 ∧ (5 : Int) < (WIDTH : Int) ∧ (0 : Int) ≤ 3 ∧
      (3 : Int) < (HEIGHT : Int) ∧
      (∀ r : Fin HEIGHT, fb_clear r < 2 ^ 32) ∧
      (∀ r : Fin HEIGHT, (r : Int) = 3 → (fb_clear r).testBit (5 : Int).toNat = false)) ∧
    fb_set_pixel (fb_set_pixel fb_clear 5 3 true) 5 3 false = fb_clear :=
  ⟨⟨by decide, by decide, by decide, by decide, fun r => by norm_num [fb_clear],
      fun r hr => by simp [fb_clear]⟩,
    c3_roundtrip_amended fb_clear 5 3 (by decide) (by decide) (by decide) (by decide)
      (fun r => by norm_num [fb_clear]) (fun r hr => by simp [fb_clear])⟩

end Max7219

namespace Max7219

/-- Helper: every `next_light` call increments `cur_light_x` by one —
the `cur_light_x == 0;` statement in the source is a comparison with no
effect, so no branch ever resets it. -/
theorem next_light_x_step (bus : Nat → Nat) (s : LightState) :
    (next_light bus s).1.cur_light_x = s.cur_light_x + 1 := by
  unfold next_light next_light_tail
  dsimp only
  split
  · split
    · rfl
    · split <;> rfl
  · split <;> rfl

/-- C9: `next_light`'s wrap test compares the incremented x cursor against
the height constant `HEIGHT = 8` (the y cursor moves exactly when
`x + 1 > HEIGHT`, not at the width bound `WIDTH = 32`), and the intended
reset of x is a no-effect comparison: each call sets
`cur_light_x` to its predecessor plus one, so starting from the initial
state the x cursor after n calls is exactly n — strictly increasing and
never reset to 0. -/
theorem c9_cursor_never_resets (bus : Nat → Nat) (s : LightState) (n : Nat) :
    (next_light bus s).1.cur_light_x = s.cur_light_x + 1 ∧
    ((next_light bus s).1.cur_light_y ≠ s.cur_light_y ↔
      s.cur_light_x + 1 > (HEIGHT : Int)) ∧
    HEIGHT = 8 ∧ WIDTH = 32 ∧
    (runLights bus n).cur_light_x = (n : Int) := by
  refine ⟨next_light_x_step bus s, ?_, rfl, rfl, ?_⟩
  · unfold next_light next_light_tail
    dsimp only
    split
    · rename_i hx
      split
      · simpa using hx
      · split <;> simpa using hx
    · rename_i hx
      simp only [not_lt] at hx
      split <;>
        simp only [ne_eq, not_true_eq_false, false_iff, not_lt, gt_iff_lt] <;>
        omega
  · induction n with
    | zero => rfl
    | succ m ih =>
      show (next_light bus (runLights bus m)).1.cur_light_x = ((m + 1 : Nat) : Int)
      rw [next_light_x_step, ih]
      push_cast
      ring

end Max7219

namespace Max7219

/-- C5: when every bus write succeeds, `max7219_init` issues, in order, the
broadcasts DISPLAYTEST=0, DECODE=0, SCANLIMIT=7, INTENSITY=clamped value
(above 15 clamped to 15), SHUTDOWN=1, and then one per-row write for each
row 1..8 in increasing order whose four data bytes are all zero. -/
theorem c5_init_sequence (bus : Nat → Nat) (s : BusState) (intensity : Nat)
    (hbus : ∀ k, bus k = 2 * NUM_DEVICES) :
    (max7219_init bus s intensity).1.writes =
      s.writes ++
        [broadcastTx REG_DISPLAYTEST 0x00, broadcastTx REG_DECODE 0x00,
         broadcastTx REG_SCANLIMIT 0x07,
         broadcastTx REG_INTENSITY (if intensity > 15 then 15 else intensity),
         broadcastTx REG_SHUTDOWN 0x01,
         max7219_send_row_tx 1 [0, 0, 0, 0], max7219_send_row_tx 2 [0, 0, 0, 0],
         max7219_send_row_tx 3 [0, 0, 0, 0], max7219_send_row_tx 4 [0, 0, 0, 0],
         max7219_send_row_tx 5 [0, 0, 0, 0], max7219_send_row_tx 6 [0, 0, 0, 0],
         max7219_send_row_tx 7 [0, 0, 0, 0], max7219_send_row_tx 8 [0, 0, 0, 0]] ∧
    (max7219_init bus s intensity).2 = Except.ok () := by
  constructor <;>
    simp [max7219_init, max7219_broadcast, init_clear_loop, max7219_send_row,
      spi_write, hbus, broadcastTx, max7219_send_row_tx, NUM_DEVICES,
      List.range_succ]

/-- Witness for C5 at `init(20)` on an all-successful bus: the INTENSITY
broadcast carries 15, not 20. -/
theorem c5_init_sequence_witness :
    (∀ k, (fun _ => 8 : Nat → Nat) k = 2 * NUM_DEVICES) ∧
    (max7219_init (fun _ => 8) ⟨[]⟩ 20).1.writes =
      BusState.writes ⟨[]⟩ ++
        [broadcastTx REG_DISPLAYTEST 0x00, broadcastTx REG_DECODE 0x00,
         broadcastTx REG_SCANLIMIT 0x07,
         broadcastTx REG_INTENSITY (if 20 > 15 then 15 else 20),
         broadcastTx REG_SHUTDOWN 0x01,
         max7219_send_row_tx 1 [0, 0, 0, 0], max7219_send_row_tx 2 [0, 0, 0, 0],
         max7219_send_row_tx 3 [0, 0, 0, 0], max7219_send_row_tx 4 [0, 0, 0, 0],
         max7219_send_row_tx 5 [0, 0, 0, 0], max7219_send_row_tx 6 [0, 0, 0, 0],
         max7219_send_row_tx 7 [0, 0, 0, 0], max7219_send_row_tx 8 [0, 0, 0, 0]] ∧
    (max7219_init (fun _ => 8) ⟨[]⟩ 20).2 = Except.ok () :=
  ⟨fun _ => rfl,
    (c5_init_sequence (fun _ => 8) ⟨[]⟩ 20 (fun _ => rfl)).1,
    (c5_init_sequence (fun _ => 8) ⟨[]⟩ 20 (fun _ => rfl)).2⟩

end Max7219

namespace Max7219

/-- The transaction `fb_flush` sends for framebuffer row `y`: row register
`y+1` with the row's per-device bytes. -/
def flushRowTx (fb : Framebuffer) (y : Fin HEIGHT) : List Nat :=
  max7219_send_row_tx (y.val + 1) (rowDevBytes (fb y))

/-- Helper: when every remaining write succeeds, the flush loop emits one
row transaction per remaining row, in order, and reports success. -/
theorem fb_flush_loop_ok (bus : Nat → Nat) (fb : Framebuffer) (ys : List (Fin HEIGHT))
    (s : BusState)
    (hbus : ∀ i, i < ys.length → bus (s.writes.length + i) = 2 * NUM_DEVICES) :
    fb_flush_loop bus fb ys s =
      (⟨s.writes ++ ys.map (flushRowTx fb)⟩, Except.ok ()) := by
  induction ys generalizing s with
  | nil => simp [fb_flush_loop]
  | cons y ys ih =>
    have hy8 : (y : Nat) < 8 := y.isLt
    have h0 : bus s.writes.length = 2 * NUM_DEVICES := by
      simpa using hbus 0 (by simp)
    have htn : (((y : Nat) : Int) + 1).toNat = (y : Nat) + 1 := by omega
    unfold fb_flush_loop max7219_send_row
    rw [if_neg (by omega)]
    dsimp only [spi_write]
    rw [if_neg (by simp [h0, max7219_send_row_tx_length])]
    dsimp only
    rw [ih ⟨s.writes ++ [max7219_send_row_tx ((((y : Nat) : Int)) + 1).toNat
          (rowDevBytes (fb y))]⟩
        (by
          intro i hi
          simpa [Nat.add_assoc, Nat.add_comm 1 i] using hbus (i + 1) (by simpa using hi))]
    simp [htn, flushRowTx]

/-- Helper: if the j-th remaining write is the first to fail, the flush
loop stops right after it with `ShortWrite`, having issued only the
transactions up to and including position j. -/
theorem fb_flush_loop_err (bus : Nat → Nat) (fb : Framebuffer) (ys : List (Fin HEIGHT))
    (s : BusState) (j : Nat) (hj : j < ys.length)
    (hpre : ∀ i, i < j → bus (s.writes.length + i) = 2 * NUM_DEVICES)
    (hfail : bus (s.writes.length + j) ≠ 2 * NUM_DEVICES) :
    fb_flush_loop bus fb ys s =
      (⟨s.writes ++ (ys.take (j + 1)).map (flushRowTx fb)⟩,
       Except.error DriverError.ShortWrite) := by
  induction ys generalizing s j with
  | nil => simp at hj
  | cons y ys ih =>
    have hy8 : (y : Nat) < 8 := y.isLt
    have htn : (((y : Nat) : Int) + 1).toNat = (y : Nat) + 1 := by omega
    cases j with
    | zero =>
      unfold fb_flush_loop max7219_send_row
      rw [if_neg (by omega)]
      dsimp only [spi_write]
      rw [if_pos (by simpa [max7219_send_row_tx_length] using hfail)]
      simp [htn, flushRowTx]
    | succ j' =>
      have h0 : bus s.writes.length = 2 * NUM_DEVICES := by
        simpa using hpre 0 (by omega)
      unfold fb_flush_loop max7219_send_row
      rw [if_neg (by omega)]
      dsimp only [spi_write]
      rw [if_neg (by simp [h0, max7219_send_row_tx_length])]
      dsimp only
      rw [ih ⟨s.writes ++ [max7219_send_row_tx ((((y : Nat) : Int)) + 1).toNat
            (rowDevBytes (fb y))]⟩ j' (by simpa using hj)
          (by
            intro i hi
            simpa [Nat.add_assoc, Nat.add_comm 1 i] using hpre (i + 1) (by omega))
          (by
            simpa [Nat.add_assoc, Nat.add_comm 1 j'] using hfail)]
      simp [htn, flushRowTx]

/-- C8: from a fresh trace, if every per-row write succeeds, `fb_flush`
issues exactly the eight row transactions for rows 1..8 in order and
returns success; if the write for row y is the first to fail, it returns
`ShortWrite` immediately, having issued only the writes for rows up to and
including y (y+1 writes in total, none after y). -/
theorem c8_flush_first_error (bus : Nat → Nat) (fb : Framebuffer) :
    ((∀ k, k < HEIGHT → bus k = 2 * NUM_DEVICES) →
      (fb_flush bus ⟨[]⟩ fb).1.writes = (List.finRange HEIGHT).map (flushRowTx fb) ∧
      (fb_flush bus ⟨[]⟩ fb).2 = Except.ok ()) ∧
    (∀ y : Nat, y < HEIGHT → (∀ k, k < y → bus k = 2 * NUM_DEVICES) →
      bus y ≠ 2 * NUM_DEVICES →
      (fb_flush bus ⟨[]⟩ fb).2 = Except.error DriverError.ShortWrite ∧
      (fb_flush bus ⟨[]⟩ fb).1.writes.length = y + 1) := by
  constructor
  · intro hb
    rw [show fb_flush bus ⟨[]⟩ fb = fb_flush_loop bus fb (List.finRange HEIGHT) ⟨[]⟩
        from rfl]
    rw [fb_flush_loop_ok bus fb _ ⟨[]⟩
        (by intro i hi; simpa using hb i (by simpa using hi))]
    simp
  · intro y hy hpre hfail
    have hy8 : y < 8 := hy
    rw [show fb_flush bus ⟨[]⟩ fb = fb_flush_loop bus fb (List.finRange HEIGHT) ⟨[]⟩
        from rfl]
    rw [fb_flush_loop_err bus fb _ ⟨[]⟩ y (by simpa using hy)
        (by intro i hi; simpa using hpre i hi) (by simpa using hfail)]
    refine ⟨rfl, ?_⟩
    simp
    omega

/-- Witness for C8: an all-successful bus flushes with success; a bus whose
writes fail from the fourth one on makes the flush stop with `ShortWrite`
after exactly four writes (rows 1..4). -/
theorem c8_flush_first_error_witness :
    (fb_flush (fun _ => 8) ⟨[]⟩ fb_clear).2 = Except.ok () ∧
    (fb_flush (fun k => if k < 3 then 8 else 0) ⟨[]⟩ fb_clear).2 =
      Except.error DriverError.ShortWrite ∧
    (fb_flush (fun k => if k < 3 then 8 else 0) ⟨[]⟩ fb_clear).1.writes.length = 3 + 1 :=
  ⟨((c8_flush_first_error (fun _ => 8) fb_clear).1 (fun _ _ => rfl)).2,
   ((c8_flush_first_error (fun k => if k < 3 then 8 else 0) fb_clear).2 3 (by decide)
      (fun k hk => by rw [if_pos hk]; rfl) (by decide)).1,
   ((c8_flush_first_error (fun k => if k < 3 then 8 else 0) fb_clear).2 3 (by decide)
      (fun k hk => by rw [if_pos hk]; rfl) (by decide)).2⟩

end Max7219
